import Mathlib

/-!
Verification development for the StoryMode chat extension (src/index.js).

The file shallowly embeds the arc-progression core of the extension:
the phase calculator (getPhaseInfo), the template substitution and
injection composer (buildPhaseInjection, buildFullInjection), and the
event-driven controller (the GENERATION_STARTED, MESSAGE_SWIPED,
MESSAGE_RECEIVED and CHAT_CHANGED handlers).  JavaScript numbers are
modelled as Int with exact rational arithmetic for the floor and round
operations (the discrepancy with IEEE doubles is noted at each use and
is irrelevant at the magnitudes involved); fallible generation calls
are modelled as explicit Except-valued inputs.
-/

namespace StoryMode

/-- The three narrative phases used by the extension. -/
inductive Phase where
  | setup
  | confrontation
  | resolution
deriving DecidableEq, Repr

/-- String form of a phase, as used in template substitution and guidance lookup. -/
def Phase.toStr : Phase → String
  | .setup => "setup"
  | .confrontation => "confrontation"
  | .resolution => "resolution"

/-- Derived phase view returned by getPhaseInfo.  percentInPhase is an
Option: `none` models the JavaScript non-integer results (NaN from 0/0,
or an infinity) produced when totalInPhase is zero, since
Math.round((positionInPhase / totalInPhase) * 100) is then not an
integer. -/
structure PhaseInfo where
  phase : Phase
  positionInPhase : Int
  totalInPhase : Int
  percentInPhase : Option Int
  phaseStart : Int
  phaseEnd : Int
deriving DecidableEq, Repr

/-- Math.round(num / den) for den > 0, i.e. floor(num/den + 1/2),
computed exactly over Int. -/
def jsRoundDiv (num den : Int) : Int := (2 * num + den).fdiv (2 * den)

/-- Phase boundary setupEnd: the source computes Math.floor(arcLength * 0.33);
for the magnitudes in play this equals the exact floor of arcLength * 33 / 100,
because the nearest IEEE double to 0.33 lies slightly above 33/100 and the
rounding error never crosses an integer for |arcLength| below 10^14. -/
def setupEndOf (arcLength : Int) : Int := (arcLength * 33).fdiv 100

/-- Phase boundary confrontationEnd: Math.floor(arcLength * 0.66), exact
over Int for the same reason as setupEndOf. -/
def confrontationEndOf (arcLength : Int) : Int := (arcLength * 66).fdiv 100

/-- Embedding of getPhaseInfo (src/index.js lines 229 to 269): validates
arcLength (non-positive falls back to 30), computes the two boundaries,
classifies the step by inclusive upper bound, and derives the position,
total and percentage within the phase. -/
def getPhaseInfo (currentStep arcLength : Int) : PhaseInfo :=
  let arcLength := if arcLength ≤ 0 then 30 else arcLength
  let setupEnd := setupEndOf arcLength
  let confrontationEnd := confrontationEndOf arcLength
  let pieces :=
    if currentStep ≤ setupEnd then
      (Phase.setup, (1 : Int), setupEnd, currentStep)
    else if currentStep ≤ confrontationEnd then
      (Phase.confrontation, setupEnd + 1, confrontationEnd, currentStep - setupEnd)
    else
      (Phase.resolution, confrontationEnd + 1, arcLength, currentStep - confrontationEnd)
  let phase := pieces.1
  let phaseStart := pieces.2.1
  let phaseEnd := pieces.2.2.1
  let positionInPhase := pieces.2.2.2
  let totalInPhase := phaseEnd - phaseStart + 1
  let percentInPhase :=
    if totalInPhase = 0 then none
    else some (jsRoundDiv (positionInPhase * 100) totalInPhase)
  ⟨phase, positionInPhase, totalInPhase, percentInPhase, phaseStart, phaseEnd⟩

/-- Catalog entry for a story type.  phasePrompts models the JavaScript
record storyType.phasePrompts with a total function: a key absent in the
record corresponds to the empty string, matching the fallback in
storyType.phasePrompts?.[phase] || two quotes. -/
structure StoryType where
  id : String
  storyPrompt : String
  progressTemplate : String
  phasePrompts : Phase → String

/-- Catalog entry for an author style; an empty nsfwPrompt models an
absent or falsy nsfwPrompt field. -/
structure AuthorStyle where
  id : String
  authorPrompt : String
  nsfwPrompt : String
deriving DecidableEq, Repr

/-- Global settings toggles read by the composer and the controller. -/
structure Settings where
  enabled : Bool
  storyArcEnabled : Bool
  authorStyleEnabled : Bool
  nsfwEnabled : Bool
  epilogueEnabled : Bool
  summaryEnabled : Bool
  debugMode : Bool
deriving DecidableEq, Repr

/-- Per-conversation arc state stored in chat metadata. -/
structure ChatState where
  currentStep : Int
  arcLength : Int
  epilogueShown : Bool
  summaryShown : Bool
  selectedStoryType : String
  selectedAuthorStyle : String
deriving DecidableEq, Repr

/-- The nine substitution values handed to the progress-template
renderer, already converted to strings the way JavaScript coerces the
replacement arguments. -/
structure TemplateVars where
  currentStep : String
  arcLength : String
  arcPercent : String
  phase : String
  positionInPhase : String
  totalInPhase : String
  phasePercent : String
  phaseStart : String
  phaseEnd : String
deriving DecidableEq, Repr

/-- Fueled worker for jsReplaceAll.  At each position, if the pattern
(required non-empty) matches, emit the replacement and continue after
the matched region without rescanning the replacement; otherwise copy
one character.  The fuel is an upper bound on the number of positions
visited; callers pass the length of the subject string, which always
suffices because every recursive call strictly shortens the subject. -/
def replaceAllAux : Nat → List Char → List Char → List Char → List Char
  | 0, _, _, s => s
  | fuel + 1, pat, val, s =>
    if pat ≠ [] ∧ pat.isPrefixOf s then
      val ++ replaceAllAux fuel pat val (s.drop pat.length)
    else
      match s with
      | [] => []
      | c :: rest => c :: replaceAllAux fuel pat val rest

/-- JavaScript s.replace(new RegExp(pattern-literal, g-flag), val):
replace every non-overlapping occurrence of the literal pattern, left to
right. -/
def jsReplaceAll (s pat val : String) : String :=
  String.mk (replaceAllAux s.data.length pat.data val.data s.data)

/-- The chained substitution applied to storyType.progressTemplate in
buildPhaseInjection (src/index.js lines 298 to 307): each of the nine
recognized placeholder tokens is globally replaced with its value, in
the source order. -/
def renderProgressTemplate (template : String) (v : TemplateVars) : String :=
  let t := jsReplaceAll template "{currentStep}" v.currentStep
  let t := jsReplaceAll t "{arcLength}" v.arcLength
  let t := jsReplaceAll t "{arcPercent}" v.arcPercent
  let t := jsReplaceAll t "{phase}" v.phase
  let t := jsReplaceAll t "{positionInPhase}" v.positionInPhase
  let t := jsReplaceAll t "{totalInPhase}" v.totalInPhase
  let t := jsReplaceAll t "{phasePercent}" v.phasePercent
  let t := jsReplaceAll t "{phaseStart}" v.phaseStart
  jsReplaceAll t "{phaseEnd}" v.phaseEnd

/-- String form of Math.round((num / den) * 100) as substituted into the
template for arcPercent.  A zero denominator yields the JavaScript
non-finite results (NaN for 0/0, Infinity otherwise); negative corner
cases do not arise in the claims. -/
def jsPercentStr (num den : Int) : String :=
  if den = 0 then (if num = 0 then "NaN" else "Infinity")
  else toString (jsRoundDiv (num * 100) den)

/-- String form of a percentInPhase value, with none rendered the way
JavaScript stringifies NaN. -/
def percentStrOf : Option Int → String
  | none => "NaN"
  | some n => toString n

/-- The debug-mode trailing directive appended by buildPhaseInjection
when settings.debugMode is on (src/index.js line 316). -/
def debugSuffix (nextStep arcLength : Int) (phase : Phase) : String :=
  "\n\n[IMPORTANT: At the end of your response, include a debug note in this exact format: \"(OOC: Step "
    ++ toString nextStep ++ "/" ++ toString arcLength ++ ", Phase: " ++ phase.toStr ++ ")\"]"

/-- Embedding of buildPhaseInjection (src/index.js lines 293 to 320):
substitutes the nine placeholders using nextStep = currentStep + 1 and
the caller-supplied phaseInfo, appends the phase guidance, and appends
the debug directive when debug mode is on. -/
def buildPhaseInjection (settings : Settings) (storyType : StoryType)
    (phaseInfo : PhaseInfo) (chatState : ChatState) : String :=
  let nextStep := chatState.currentStep + 1
  let v : TemplateVars :=
    ⟨toString nextStep, toString chatState.arcLength,
      jsPercentStr nextStep chatState.arcLength,
      phaseInfo.phase.toStr, toString phaseInfo.positionInPhase,
      toString phaseInfo.totalInPhase, percentStrOf phaseInfo.percentInPhase,
      toString phaseInfo.phaseStart, toString phaseInfo.phaseEnd⟩
  let progressText := renderProgressTemplate storyType.progressTemplate v
  let phaseGuidance := storyType.phasePrompts phaseInfo.phase
  let output := progressText ++ "\n\n" ++ phaseGuidance
  if settings.debugMode = true then
    output ++ debugSuffix nextStep chatState.arcLength phaseInfo.phase
  else output

/-- Embedding of buildStoryBlueprint (src/index.js lines 278 to 281). -/
def buildStoryBlueprint (storyType : StoryType) : String := storyType.storyPrompt

/-- The author-style part list built inside buildFullInjection
(src/index.js lines 357 to 370): emitted only when the style feature is
enabled, a style id is selected (non-empty, since the source tests the
truthiness of the id), and the id resolves in the catalog; the NSFW
addendum is appended only when globally enabled and defined by the
style. -/
def stylePartsOf (settings : Settings) (chatState : ChatState)
    (authorStyles : List AuthorStyle) : List String :=
  if settings.authorStyleEnabled = true ∧ chatState.selectedAuthorStyle ≠ "" then
    match authorStyles.find? (fun s => s.id == chatState.selectedAuthorStyle) with
    | some authorStyle =>
      let styleContent := authorStyle.authorPrompt ++
        (if settings.nsfwEnabled = true ∧ authorStyle.nsfwPrompt ≠ "" then
          "\n\n" ++ authorStyle.nsfwPrompt
        else "")
      ["<style>\n" ++ styleContent ++ "\n</style>"]
    | none => []
  else []

/-- Embedding of buildFullInjection (src/index.js lines 329 to 373):
returns the empty string when the feature is globally disabled,
otherwise joins the optional story-arc segment and the optional
author-style segment with a blank-line separator.  The story segment
requires the arc feature, a selected id that resolves in the catalog,
and currentStep < arcLength unless isPreview. -/
def buildFullInjection (settings : Settings) (chatState : ChatState)
    (storyTypes : List StoryType) (authorStyles : List AuthorStyle)
    (isPreview : Bool) : String :=
  if settings.enabled = false then ""
  else
    let storyParts :=
      if settings.storyArcEnabled = true ∧ chatState.selectedStoryType ≠ "" then
        match storyTypes.find? (fun t => t.id == chatState.selectedStoryType) with
        | some storyType =>
          if chatState.currentStep < chatState.arcLength ∨ isPreview = true then
            let nextStep := chatState.currentStep + 1
            let phaseInfo := getPhaseInfo nextStep chatState.arcLength
            let storyContent := buildStoryBlueprint storyType ++ "\n\n" ++
              buildPhaseInjection settings storyType phaseInfo chatState
            ["<story>\n" ++ storyContent ++ "\n</story>"]
          else []
        | none => []
      else []
    String.intercalate "\n\n" (storyParts ++ stylePartsOf settings chatState authorStyles)

/-- The fixed end-of-arc notice message (src/index.js lines 2175 to 2177). -/
def NOTICE_TEXT : String :=
  "**<center>You have reached the end of this story arc. Feel free to continue, or if you would like to start a new arc, click Reset Arc in the Story Mode settings.</center>**"

/-- Controller state observed by the signal handlers: the two transient
flags, the global settings, the per-conversation arc state, the list of
messages the controller itself has appended via pushStoryMessage
(oldest first), and a count of saveChatStoryState calls, modelling
persistence. -/
structure CtrlState where
  isRegenerating : Bool
  isLoadingChat : Bool
  settings : Settings
  chatState : ChatState
  pushed : List String
  saveCount : Nat
deriving DecidableEq, Repr

/-- Embedding of generateEpilogueForStory (src/index.js lines 2206 to
2242).  recentMessages stands for the joined last-20 non-system message
context computed from the chat array; gen is the outcome of the
generateRaw collaborator call, error standing for a thrown exception.
The source wraps generateRaw in try/catch and returns the empty string
on a throw, and coalesces an empty or whitespace result to the empty
string. -/
def generateEpilogueForStory (recentMessages : String) (gen : Except Unit String) : String :=
  if recentMessages.trim = "" then ""
  else
    match gen with
    | .error _ => ""
    | .ok e => e.trim

/-- Embedding of summarizeChatMainForStory together with
getStoryTextToSummarize (src/index.js lines 2260 to 2298).  storyText
stands for the joined summarization source text; unlike the epilogue
path, the source does not wrap generateRaw in try/catch here, so a
thrown error propagates to the caller, modelled by returning it. -/
def summarizeChatMainForStory (storyText : String) (gen : Except Unit String) : Except Unit String :=
  if storyText.trim = "" then .ok ""
  else
    match gen with
    | .error u => .error u
    | .ok s => .ok s.trim

/-- The conditionsMet boolean computed before the end-of-arc notice
(src/index.js lines 2164 to 2172), evaluated on the current settings
and the possibly-updated chat state. -/
def conditionsMet (settings : Settings) (cs : ChatState) : Bool :=
  (!settings.epilogueEnabled && !settings.summaryEnabled)
  || (settings.epilogueEnabled && cs.epilogueShown &&
      (!settings.summaryEnabled || cs.summaryShown))
  || (settings.summaryEnabled && cs.summaryShown &&
      (!settings.epilogueEnabled || cs.epilogueShown))

/-- The tail of the completion branch: push the fixed notice when
conditionsMet holds (src/index.js lines 2174 to 2179). -/
def finishNotice (s : CtrlState) : CtrlState :=
  if conditionsMet s.settings s.chatState = true then
    { s with pushed := s.pushed ++ [NOTICE_TEXT] }
  else s

/-- The completion sequence of the MESSAGE_RECEIVED handler, reached
when currentStep equals arcLength on a counted checkpoint (src/index.js
lines 2133 to 2180): epilogue step, then summary step, then the
end-of-arc notice when conditionsMet holds.  The returned Bool records
whether an uncaught exception escaped, which in the source can happen
only through the summary generateRaw call (the epilogue call is wrapped
in try/catch inside generateEpilogueForStory). -/
def completionStep (s : CtrlState)
    (epiCtx : String) (epiGen : Except Unit String)
    (sumCtx : String) (sumGen : Except Unit String) : CtrlState × Bool :=
  let s1 :=
    if s.settings.epilogueEnabled = true ∧ s.chatState.epilogueShown = false then
      let epilogue := generateEpilogueForStory epiCtx epiGen
      if epilogue ≠ "" then
        { s with pushed := s.pushed ++ [epilogue],
                 chatState := { s.chatState with epilogueShown := true },
                 saveCount := s.saveCount + 1 }
      else s
    else s
  if s.settings.summaryEnabled = true ∧ s1.chatState.summaryShown = false then
    match summarizeChatMainForStory sumCtx sumGen with
    | .error _ => (s1, true)
    | .ok summary =>
      let s2 :=
        if summary ≠ "" then
          { s1 with pushed := s1.pushed ++ [summary],
                    chatState := { s1.chatState with summaryShown := true },
                    saveCount := s1.saveCount + 1 }
        else s1
      (finishNotice s2, false)
  else (finishNotice s1, false)

/-- Embedding of the MESSAGE_RECEIVED handler onMessageReceived
(src/index.js lines 2098 to 2181): the four short-circuit guards in
source order, then the step increment below arcLength, the completion
sequence at arcLength, and no action above it.  epiCtx and sumCtx stand
for the chat-derived context strings of the two generators; epiGen and
sumGen for the outcomes of the corresponding generateRaw calls.  Calls
to updateStoryPrompt, updateStatusDisplay, toastr and the settle delays
have no effect on this state and are omitted. -/
def onMessageReceived (s : CtrlState) (isUser : Bool)
    (epiCtx : String) (epiGen : Except Unit String)
    (sumCtx : String) (sumGen : Except Unit String) : CtrlState × Bool :=
  if isUser = true then (s, false)
  else if s.isLoadingChat = true then (s, false)
  else if s.isRegenerating = true then ({ s with isRegenerating := false }, false)
  else if s.settings.enabled = false ∨ s.settings.storyArcEnabled = false then (s, false)
  else
    let cs := s.chatState
    if cs.currentStep < cs.arcLength then
      ({ s with chatState := { cs with currentStep := cs.currentStep + 1 },
                saveCount := s.saveCount + 1 }, false)
    else if cs.currentStep = cs.arcLength then
      completionStep s epiCtx epiGen sumCtx sumGen
    else (s, false)

/-- Embedding of the GENERATION_STARTED handler (src/index.js lines 2066
to 2079): always clears isLoadingChat; with a non-empty conversation it
marks a fresh generation by clearing isRegenerating, with an empty one
it sets isRegenerating so the initial setup message is not counted. -/
def onGenerationStarted (s : CtrlState) (chatLen : Nat) : CtrlState :=
  let s := { s with isLoadingChat := false }
  if chatLen > 0 then { s with isRegenerating := false }
  else { s with isRegenerating := true }

/-- Embedding of the MESSAGE_SWIPED handler (src/index.js lines 2081 to
2085); the conditionally registered MESSAGE_REGENERATED handler has the
same effect on this state. -/
def onSwiped (s : CtrlState) : CtrlState := { s with isRegenerating := true }

/-- Embedding of the CHAT_CHANGED handler onChatChanged (src/index.js
lines 2303 to 2319), up to the delayed timer; the timer callback that
later clears isLoadingChat is delivered as its own chatLoadSettled
signal. -/
def onChatChanged (s : CtrlState) : CtrlState :=
  { s with isRegenerating := false, isLoadingChat := true }

/-- The setTimeout callback inside onChatChanged that clears
isLoadingChat after the grace delay. -/
def onChatLoadSettled (s : CtrlState) : CtrlState := { s with isLoadingChat := false }

/-- The lifecycle signals delivered by the host, carrying the data each
handler inspects: the conversation length for GENERATION_STARTED, and
the is-user flag plus the generator contexts and outcomes for
MESSAGE_RECEIVED. -/
inductive Signal where
  | genStarted (chatLen : Nat)
  | swiped
  | msgReceived (isUser : Bool) (epiCtx : String) (epiGen : Except Unit String)
      (sumCtx : String) (sumGen : Except Unit String)
  | chatChanged
  | chatLoadSettled

/-- Dispatch one lifecycle signal to its handler. -/
def stepSignal (s : CtrlState) : Signal → CtrlState
  | .genStarted n => onGenerationStarted s n
  | .swiped => onSwiped s
  | .msgReceived u ec eg sc sg => (onMessageReceived s u ec eg sc sg).1
  | .chatChanged => onChatChanged s
  | .chatLoadSettled => onChatLoadSettled s

/-- Run a finite sequence of lifecycle signals from a starting state. -/
def runSignals (s : CtrlState) (sigs : List Signal) : CtrlState :=
  sigs.foldl stepSignal s

/-- Spec-side counterpart of the phase text, written from the spec
sentence that the engine previews for the upcoming message: it takes the
step to render for as an explicit parameter, substitutes the template
and looks up the guidance for the phase of exactly that step.  Comparing
buildFullInjection against this definition applied at
currentStep + 1 settles which step the source renders for. -/
def specPhaseTextAt (settings : Settings) (st : StoryType) (arcLength step : Int) : String :=
  let pi := getPhaseInfo step arcLength
  let progressText := renderProgressTemplate st.progressTemplate
    ⟨toString step, toString arcLength, jsPercentStr step arcLength, pi.phase.toStr,
      toString pi.positionInPhase, toString pi.totalInPhase, percentStrOf pi.percentInPhase,
      toString pi.phaseStart, toString pi.phaseEnd⟩
  let base := progressText ++ "\n\n" ++ st.phasePrompts pi.phase
  if settings.debugMode = true then base ++ debugSuffix step arcLength pi.phase else base

/-- Concrete settings: feature and arc tracking enabled, everything else
off. -/
def demoSettings : Settings := ⟨true, true, false, false, false, false, false⟩

/-- Concrete fresh arc state with arc length 10. -/
def demoChat : ChatState := ⟨0, 10, false, false, "", ""⟩

/-- Concrete controller state ready to count steps. -/
def demoCtrl : CtrlState := ⟨false, false, demoSettings, demoChat, [], 0⟩

/-- Concrete controller state whose arc has just reached completion
(currentStep = arcLength = 10) with epilogue and summary disabled. -/
def arcDoneCtrl : CtrlState := ⟨false, false, demoSettings, ⟨10, 10, false, false, "", ""⟩, [], 0⟩

/-- Concrete story type used to instantiate composer theorems. -/
def demoStoryType : StoryType :=
  ⟨"t1", "Blueprint.", "Step {currentStep} of {arcLength}", fun ph => "Guidance for " ++ ph.toStr⟩

/-- Concrete arc state selecting demoStoryType at step 3 of 10. -/
def c5Chat : ChatState := ⟨3, 10, false, false, "t1", ""⟩

/-- Concrete author style with no NSFW addendum. -/
def demoStyle : AuthorStyle := ⟨"style-1", "Write tersely.", ""⟩

/-- Concrete settings with both the arc and the author-style features
enabled. -/
def c8Settings : Settings := ⟨true, true, true, false, false, false, false⟩

/-- Concrete arc state whose selected story type id ghost-42 dangles
while the selected author style resolves. -/
def c8Chat : ChatState := ⟨3, 10, false, false, "ghost-42", "style-1"⟩

/-- Concrete settings with epilogue and summary generation enabled. -/
def c9Settings : Settings := ⟨true, true, false, false, true, true, false⟩

/-- Concrete controller state at the completion checkpoint with post-arc
generation enabled. -/
def c9Ctrl : CtrlState := ⟨false, false, c9Settings, ⟨5, 5, false, false, "", ""⟩, [], 0⟩

/-- Concrete settings with the feature globally disabled and every other
toggle on. -/
def offSettings : Settings := ⟨false, true, true, true, true, true, true⟩

/-! Helper lemmas about the completion sequence. -/

/-- Appending the end-of-arc notice never changes the arc state. -/
lemma finishNotice_chatState (s : CtrlState) : (finishNotice s).chatState = s.chatState := by
  unfold finishNotice
  split <;> rfl

/-- Any message present after finishNotice was either already pushed or
is the fixed notice. -/
lemma finishNotice_pushed_mem (s : CtrlState) (m : String)
    (h : m ∈ (finishNotice s).pushed) : m ∈ s.pushed ∨ m = NOTICE_TEXT := by
  unfold finishNotice at h
  split at h
  · simp at h
    tauto
  · exact Or.inl h

/-- finishNotice keeps every already-pushed message. -/
lemma finishNotice_pushed_sup (s : CtrlState) (m : String) (h : m ∈ s.pushed) :
    m ∈ (finishNotice s).pushed := by
  unfold finishNotice
  split
  · simp [h]
  · exact h

/-- A summary-generation error reaching the handler can only come from a
thrown generateRaw call, because the empty-source early return is a
normal result. -/
lemma summarize_error_inv (sc : String) (sg : Except Unit String) (u : Unit)
    (h : summarizeChatMainForStory sc sg = Except.error u) : sg = Except.error u := by
  by_cases hsc : sc.trim = ""
  · simp [summarizeChatMainForStory, hsc] at h
  · cases sg with
    | error v => cases v; cases u; rfl
    | ok t => simp [summarizeChatMainForStory, hsc] at h

/-- When the epilogue generator yields the empty string, the epilogue
step of the completion sequence is a no-op and only the summary step and
the notice remain. -/
lemma completionStep_of_epilogue_empty (s : CtrlState) (ec : String)
    (eg : Except Unit String) (sc : String) (sg : Except Unit String)
    (hE : generateEpilogueForStory ec eg = "") :
    completionStep s ec eg sc sg =
      if s.settings.summaryEnabled = true ∧ s.chatState.summaryShown = false then
        match summarizeChatMainForStory sc sg with
        | .error _ => (s, true)
        | .ok summary =>
          (finishNotice (if summary ≠ "" then { s with pushed := s.pushed ++ [summary], chatState := { s.chatState with summaryShown := true }, saveCount := s.saveCount + 1 } else s), false)
      else (finishNotice s, false) := by
  simp [completionStep, hE]

/-- The completion sequence never changes currentStep or arcLength. -/
lemma completionStep_currentStep (s : CtrlState) (ec : String) (eg : Except Unit String)
    (sc : String) (sg : Except Unit String) :
    (completionStep s ec eg sc sg).1.chatState.currentStep = s.chatState.currentStep ∧
    (completionStep s ec eg sc sg).1.chatState.arcLength = s.chatState.arcLength := by
  simp only [completionStep, finishNotice]
  repeat' split
  all_goals simp

/-- C1 counterexample: the claim asserts that suppression survives a
generation-about-to-start signal with a non-empty conversation delivered
between the swipe and the message-received checkpoint.  On the code it
does not: from a counting-ready state, after a swipe the
GENERATION_STARTED handler with chat length 1 clears isRegenerating
(fresh-generation branch, src/index.js line 2071), so the very next
assistant message-received signal is NOT suppressed and increments
currentStep by one. -/
theorem c1_counterexample :
    (runSignals demoCtrl [Signal.swiped, Signal.genStarted 1]).isRegenerating = false ∧
    (runSignals demoCtrl
      [Signal.swiped, Signal.genStarted 1,
        Signal.msgReceived false "" (Except.ok "") "" (Except.ok "")]).chatState.currentStep
      = demoCtrl.chatState.currentStep + 1 :=
  ⟨rfl, rfl⟩

/-- C1 amended: after a swipe signal sets the regeneration flag, exactly
one subsequent assistant message-received signal is suppressed (the arc
state is unchanged and the flag is cleared) and the next message-received
signal increments normally, PROVIDED no generation-about-to-start signal
with a non-empty conversation intervenes; such a signal clears the
regeneration flag, so a message-received checkpoint delivered after it
increments normally instead of being suppressed. -/
theorem c1_one_shot_suppression (s : CtrlState) (n : Nat)
    (ec sc ec2 sc2 : String) (eg sg eg2 sg2 : Except Unit String)
    (hload : s.isLoadingChat = false)
    (hen : s.settings.enabled = true) (harc : s.settings.storyArcEnabled = true)
    (hlt : s.chatState.currentStep < s.chatState.arcLength)
    (hn : 0 < n) :
    (stepSignal (onSwiped s) (Signal.msgReceived false ec eg sc sg)).chatState
        = s.chatState ∧
    (stepSignal (onSwiped s) (Signal.msgReceived false ec eg sc sg)).isRegenerating
        = false ∧
    (stepSignal (stepSignal (onSwiped s) (Signal.msgReceived false ec eg sc sg))
        (Signal.msgReceived false ec2 eg2 sc2 sg2)).chatState.currentStep
        = s.chatState.currentStep + 1 ∧
    (stepSignal (stepSignal (onSwiped s) (Signal.genStarted n))
        (Signal.msgReceived false ec eg sc sg)).chatState.currentStep
        = s.chatState.currentStep + 1 := by
  have h1 : stepSignal (onSwiped s) (Signal.msgReceived false ec eg sc sg)
      = { s with isRegenerating := false } := by
    simp [stepSignal, onSwiped, onMessageReceived, hload]
  refine ⟨by rw [h1], by rw [h1], ?_, ?_⟩
  · rw [h1]
    simp [stepSignal, onMessageReceived, hload, hen, harc, hlt]
  · have h2 : stepSignal (onSwiped s) (Signal.genStarted n)
        = { s with isRegenerating := false, isLoadingChat := false } := by
      simp [stepSignal, onSwiped, onGenerationStarted, hn]
    rw [h2]
    simp [stepSignal, onMessageReceived, hen, harc, hlt]

/-- C1 witness: the amended one-shot suppression at a concrete
counting-ready state with arc length 10 at step 0. -/
theorem c1_one_shot_suppression_witness :
    (stepSignal (onSwiped demoCtrl)
        (Signal.msgReceived false "" (Except.ok "") "" (Except.ok ""))).chatState
        = demoCtrl.chatState ∧
    (stepSignal (onSwiped demoCtrl)
        (Signal.msgReceived false "" (Except.ok "") "" (Except.ok ""))).isRegenerating
        = false ∧
    (stepSignal (stepSignal (onSwiped demoCtrl)
          (Signal.msgReceived false "" (Except.ok "") "" (Except.ok "")))
        (Signal.msgReceived false "" (Except.ok "") "" (Except.ok ""))).chatState.currentStep
        = demoCtrl.chatState.currentStep + 1 ∧
    (stepSignal (stepSignal (onSwiped demoCtrl) (Signal.genStarted 1))
        (Signal.msgReceived false "" (Except.ok "") "" (Except.ok ""))).chatState.currentStep
        = demoCtrl.chatState.currentStep + 1 :=
  c1_one_shot_suppression demoCtrl 1 "" "" "" "" (Except.ok "") (Except.ok "")
    (Except.ok "") (Except.ok "") rfl rfl rfl (by decide) (by decide)

/-- C2 counterexample: with epilogue and summary both disabled and
currentStep already equal to arcLength, two consecutive counted
message-received checkpoints append the fixed end-of-arc notice TWICE;
the claim asserts the later checkpoint appends nothing further. -/
theorem c2_counterexample :
    (runSignals arcDoneCtrl
      [Signal.msgReceived false "" (Except.ok "") "" (Except.ok ""),
        Signal.msgReceived false "" (Except.ok "") "" (Except.ok "")]).pushed
      = [NOTICE_TEXT, NOTICE_TEXT] := rfl

/-- C2 amended: the completion branch is re-entered on EVERY counted
checkpoint with currentStep equal to arcLength, not exactly once: with
epilogue and summary both disabled, each such counted checkpoint appends
exactly one fixed end-of-arc notice message and leaves the arc state
unchanged, so a later counted checkpoint with currentStep still equal to
arcLength appends one more notice. -/
theorem c2_completion_notice_each_checkpoint (s : CtrlState)
    (ec sc : String) (eg sg : Except Unit String)
    (hload : s.isLoadingChat = false) (hreg : s.isRegenerating = false)
    (hen : s.settings.enabled = true) (harc : s.settings.storyArcEnabled = true)
    (hepi : s.settings.epilogueEnabled = false) (hsum : s.settings.summaryEnabled = false)
    (heq : s.chatState.currentStep = s.chatState.arcLength) :
    (onMessageReceived s false ec eg sc sg).1.pushed = s.pushed ++ [NOTICE_TEXT] ∧
    (onMessageReceived s false ec eg sc sg).1.chatState = s.chatState := by
  have hlt : ¬ s.chatState.currentStep < s.chatState.arcLength := by omega
  simp [onMessageReceived, hload, hreg, hen, harc, hlt, heq, completionStep,
    finishNotice, conditionsMet, hepi, hsum]

/-- C2 witness: the amended per-checkpoint notice behavior at the
concrete completed arc state with both post-arc options disabled. -/
theorem c2_completion_notice_each_checkpoint_witness :
    (onMessageReceived arcDoneCtrl false "" (Except.ok "") "" (Except.ok "")).1.pushed
        = arcDoneCtrl.pushed ++ [NOTICE_TEXT] ∧
    (onMessageReceived arcDoneCtrl false "" (Except.ok "") "" (Except.ok "")).1.chatState
        = arcDoneCtrl.chatState :=
  c2_completion_notice_each_checkpoint arcDoneCtrl "" "" (Except.ok "") (Except.ok "")
    rfl rfl rfl rfl rfl rfl rfl

/-- C3: on a counted (assistant, not loading, not regenerating,
feature-enabled) message-received checkpoint, currentStep below
arcLength is incremented by exactly one with one persistence call,
currentStep above arcLength leaves the whole state untouched, the
resulting currentStep never exceeds the larger of the old currentStep
and arcLength, and the invariant currentStep at most arcLength is
preserved. -/
theorem c3_counted_step (s : CtrlState) (ec sc : String) (eg sg : Except Unit String)
    (hload : s.isLoadingChat = false) (hreg : s.isRegenerating = false)
    (hen : s.settings.enabled = true) (harc : s.settings.storyArcEnabled = true) :
    (s.chatState.currentStep < s.chatState.arcLength →
      (onMessageReceived s false ec eg sc sg).1.chatState.currentStep
          = s.chatState.currentStep + 1 ∧
        (onMessageReceived s false ec eg sc sg).1.saveCount = s.saveCount + 1) ∧
    (s.chatState.currentStep > s.chatState.arcLength →
      (onMessageReceived s false ec eg sc sg).1 = s) ∧
    ((onMessageReceived s false ec eg sc sg).1.chatState.currentStep
        ≤ max s.chatState.currentStep s.chatState.arcLength) ∧
    (s.chatState.currentStep ≤ s.chatState.arcLength →
      (onMessageReceived s false ec eg sc sg).1.chatState.currentStep
        ≤ s.chatState.arcLength) := by
  by_cases hlt : s.chatState.currentStep < s.chatState.arcLength
  · constructor
    · intro _
      simp [onMessageReceived, hload, hreg, hen, harc, hlt]
    refine ⟨fun hgt => absurd hgt (by omega), ?_, fun _ => ?_⟩ <;>
      simp [onMessageReceived, hload, hreg, hen, harc, hlt] <;> omega
  · by_cases heq : s.chatState.currentStep = s.chatState.arcLength
    · have hcur := completionStep_currentStep s ec eg sc sg
      have hmain : (onMessageReceived s false ec eg sc sg).1
          = (completionStep s ec eg sc sg).1 := by
        simp [onMessageReceived, hload, hreg, hen, harc, hlt, heq]
      refine ⟨fun h => absurd h hlt, fun hgt => absurd hgt (by omega), ?_, fun _ => ?_⟩ <;>
        rw [hmain, hcur.1] <;> omega
    · have hmain : (onMessageReceived s false ec eg sc sg).1 = s := by
        simp [onMessageReceived, hload, hreg, hen, harc, hlt, heq]
      refine ⟨fun h => absurd h hlt, fun _ => hmain, ?_, fun hle => ?_⟩ <;>
        rw [hmain] <;> omega

/-- C3 witness: the counted-checkpoint contract at the concrete
counting-ready state with currentStep 0 and arcLength 10. -/
theorem c3_counted_step_witness :
    (demoCtrl.chatState.currentStep < demoCtrl.chatState.arcLength →
      (onMessageReceived demoCtrl false "" (Except.ok "") "" (Except.ok "")).1.chatState.currentStep
          = demoCtrl.chatState.currentStep + 1 ∧
        (onMessageReceived demoCtrl false "" (Except.ok "") "" (Except.ok "")).1.saveCount
          = demoCtrl.saveCount + 1) ∧
    (demoCtrl.chatState.currentStep > demoCtrl.chatState.arcLength →
      (onMessageReceived demoCtrl false "" (Except.ok "") "" (Except.ok "")).1 = demoCtrl) ∧
    ((onMessageReceived demoCtrl false "" (Except.ok "") "" (Except.ok "")).1.chatState.currentStep
        ≤ max demoCtrl.chatState.currentStep demoCtrl.chatState.arcLength) ∧
    (demoCtrl.chatState.currentStep ≤ demoCtrl.chatState.arcLength →
      (onMessageReceived demoCtrl false "" (Except.ok "") "" (Except.ok "")).1.chatState.currentStep
        ≤ demoCtrl.chatState.arcLength) :=
  c3_counted_step demoCtrl "" "" (Except.ok "") (Except.ok "") rfl rfl rfl rfl

/-- C4: computePhase(20, 30) returns phase resolution with phaseStart
20, phaseEnd 30, positionInPhase 1, totalInPhase 11 and percentInPhase
9, via the boundaries setupEnd 9 and confrontationEnd 19. -/
theorem c4_computePhase_20_30 :
    getPhaseInfo 20 30 = ⟨Phase.resolution, 1, 11, some 9, 20, 30⟩ ∧
    setupEndOf 30 = 9 ∧ confrontationEndOf 30 = 19 := by
  decide

/-- C5: whenever the story-arc segment is emitted, the composed
injection equals the blueprint followed by the spec-side phase text
computed at the explicit step currentStep + 1 (so both the progress
template values and the phase-guidance lookup are taken at the upcoming
step, never at currentStep itself), joined with whatever the style
segment contributes. -/
theorem c5_next_step_preview (settings : Settings) (cs : ChatState)
    (types : List StoryType) (styles : List AuthorStyle) (pv : Bool) (st : StoryType)
    (hen : settings.enabled = true)
    (harc : settings.storyArcEnabled = true)
    (hsel : cs.selectedStoryType ≠ "")
    (hfind : types.find? (fun t => t.id == cs.selectedStoryType) = some st)
    (hemit : cs.currentStep < cs.arcLength ∨ pv = true) :
    buildFullInjection settings cs types styles pv =
      String.intercalate "\n\n"
        (("<story>\n" ++ st.storyPrompt ++ "\n\n" ++
            specPhaseTextAt settings st cs.arcLength (cs.currentStep + 1) ++ "\n</story>")
          :: stylePartsOf settings cs styles) := by
  simp [buildFullInjection, hen, harc, hsel, hfind, hemit, buildStoryBlueprint,
    buildPhaseInjection, specPhaseTextAt, String.append_assoc]

/-- C5 witness: the next-step preview equation at the concrete catalog
with one story type selected at step 3 of 10. -/
theorem c5_next_step_preview_witness :
    buildFullInjection demoSettings c5Chat [demoStoryType] [] false =
      String.intercalate "\n\n"
        (("<story>\n" ++ demoStoryType.storyPrompt ++ "\n\n" ++
            specPhaseTextAt demoSettings demoStoryType c5Chat.arcLength
              (c5Chat.currentStep + 1) ++ "\n</story>")
          :: stylePartsOf demoSettings c5Chat []) :=
  c5_next_step_preview demoSettings c5Chat [demoStoryType] [] false demoStoryType
    rfl rfl (by decide) rfl (Or.inl (by decide))

/-- C6: template rendering replaces every occurrence of each recognized
placeholder (shown here for a repeated token) and leaves an unrecognized
placeholder verbatim: the Scenario D template rendered with currentStep
value 3 and arcLength value 10 yields 3/10 with the unknown token
untouched. -/
theorem c6_render_all_occurrences :
    renderProgressTemplate "{currentStep}/{arcLength} - {unknownToken}"
        ⟨"3", "10", "30", "setup", "3", "4", "75", "1", "4"⟩ = "3/10 - {unknownToken}" ∧
    renderProgressTemplate "{arcLength} and {arcLength}"
        ⟨"3", "10", "30", "setup", "3", "4", "75", "1", "4"⟩ = "10 and 10" := by
  constructor <;> rfl

/-- C7: with the feature globally disabled the composed injection is the
empty string regardless of all other state including preview mode, and
preview changes nothing except bypassing the arc-length completion
check: when that check passes anyway, preview and non-preview composition
agree exactly. -/
theorem c7_injection_gating (settings : Settings) (cs : ChatState)
    (types : List StoryType) (styles : List AuthorStyle) (pv : Bool) :
    (settings.enabled = false → buildFullInjection settings cs types styles pv = "") ∧
    (cs.currentStep < cs.arcLength →
      buildFullInjection settings cs types styles true =
        buildFullInjection settings cs types styles false) := by
  constructor
  · intro h
    simp [buildFullInjection, h]
  · intro h
    simp [buildFullInjection, h]

/-- C7 witness: disabled settings compose to the empty string in preview
mode, and at a state below arc length preview equals non-preview. -/
theorem c7_injection_gating_witness :
    buildFullInjection offSettings demoChat [] [] true = "" ∧
    buildFullInjection demoSettings demoChat [] [] true =
      buildFullInjection demoSettings demoChat [] [] false :=
  ⟨(c7_injection_gating offSettings demoChat [] [] true).1 rfl,
    (c7_injection_gating demoSettings demoChat [] [] true).2 (by decide)⟩

/-- C8: a selected story type id absent from the catalog silently
suppresses the story segment, and a validly selected author style still
emits its style segment alone: the composed injection is exactly the
style segment. -/
theorem c8_dangling_story_id (settings : Settings) (cs : ChatState)
    (types : List StoryType) (styles : List AuthorStyle) (pv : Bool) (sty : AuthorStyle)
    (hen : settings.enabled = true)
    (hfind : types.find? (fun t => t.id == cs.selectedStoryType) = none)
    (hstyen : settings.authorStyleEnabled = true)
    (hsel : cs.selectedAuthorStyle ≠ "")
    (hsty : styles.find? (fun a => a.id == cs.selectedAuthorStyle) = some sty) :
    buildFullInjection settings cs types styles pv =
      "<style>\n" ++ sty.authorPrompt ++
        (if settings.nsfwEnabled = true ∧ sty.nsfwPrompt ≠ "" then "\n\n" ++ sty.nsfwPrompt
          else "") ++ "\n</style>" := by
  simp [buildFullInjection, stylePartsOf, hen, hfind, hstyen, hsel, hsty, String.intercalate,
    String.intercalate.go, String.append_assoc]

/-- C8 witness: the dangling story id ghost-42 with a resolving author
style yields exactly the style segment. -/
theorem c8_dangling_story_id_witness :
    buildFullInjection c8Settings c8Chat [demoStoryType] [demoStyle] false =
      "<style>\n" ++ demoStyle.authorPrompt ++
        (if c8Settings.nsfwEnabled = true ∧ demoStyle.nsfwPrompt ≠ "" then
          "\n\n" ++ demoStyle.nsfwPrompt
        else "") ++ "\n</style>" :=
  c8_dangling_story_id c8Settings c8Chat [demoStoryType] [demoStyle] false demoStyle
    rfl rfl rfl (by decide) rfl

/-- C9: when the epilogue generator throws or returns empty at the
completion checkpoint, the epilogue result is the empty string, no
epilogue message is appended (every appended message is a prior message,
the summary result, or the notice), epilogueShown remains false, the
epilogue failure propagates no exception out of the handler (any
escaping exception comes from a thrown summary generation), and the
summary step is still evaluated independently: an enabled, not yet
shown, successful non-empty summary is appended and marked shown. -/
theorem c9_epilogue_failure (s : CtrlState) (ec sc : String) (eg sg : Except Unit String)
    (hload : s.isLoadingChat = false) (hreg : s.isRegenerating = false)
    (hen : s.settings.enabled = true) (harc : s.settings.storyArcEnabled = true)
    (heq : s.chatState.currentStep = s.chatState.arcLength)
    (hshown : s.chatState.epilogueShown = false)
    (hfail : ∀ e, eg = Except.ok e → e.trim = "") :
    generateEpilogueForStory ec eg = "" ∧
    (onMessageReceived s false ec eg sc sg).1.chatState.epilogueShown = false ∧
    ((onMessageReceived s false ec eg sc sg).2 = true → ∃ u, sg = Except.error u) ∧
    (∀ m ∈ (onMessageReceived s false ec eg sc sg).1.pushed,
      m ∈ s.pushed ∨ (∃ t, summarizeChatMainForStory sc sg = Except.ok t ∧ m = t) ∨
        m = NOTICE_TEXT) ∧
    (s.settings.summaryEnabled = true → s.chatState.summaryShown = false →
      ∀ t, summarizeChatMainForStory sc sg = Except.ok t → t ≠ "" →
        (onMessageReceived s false ec eg sc sg).1.chatState.summaryShown = true ∧
          t ∈ (onMessageReceived s false ec eg sc sg).1.pushed) := by
  have hE : generateEpilogueForStory ec eg = "" := by
    by_cases h : ec.trim = ""
    · simp [generateEpilogueForStory, h]
    · cases eg with
      | error u => simp [generateEpilogueForStory, h]
      | ok e => simp [generateEpilogueForStory, h, hfail e rfl]
  have hlt : ¬ s.chatState.currentStep < s.chatState.arcLength := by omega
  have hmain : onMessageReceived s false ec eg sc sg = completionStep s ec eg sc sg := by
    simp [onMessageReceived, hload, hreg, hen, harc, hlt, heq]
  rw [hmain, completionStep_of_epilogue_empty s ec eg sc sg hE]
  refine ⟨hE, ?_⟩
  by_cases hsum : s.settings.summaryEnabled = true ∧ s.chatState.summaryShown = false
  · rw [if_pos hsum]
    cases hsg : summarizeChatMainForStory sc sg with
    | error u =>
      refine ⟨hshown, fun _ => ⟨u, summarize_error_inv sc sg u hsg⟩, ?_, ?_⟩
      · exact fun m hm => Or.inl hm
      · intro _ _ t hok _
        cases hok
    | ok t =>
      by_cases ht : t = ""
      · subst ht
        simp only [ne_eq, not_true_eq_false, if_false, reduceIte]
        refine ⟨?_, by simp, ?_, ?_⟩
        · rw [finishNotice_chatState]
          exact hshown
        · intro m hm
          rcases finishNotice_pushed_mem s m hm with hm' | hm'
          · exact Or.inl hm'
          · exact Or.inr (Or.inr hm')
        · intro _ _ t' hok ht'
          injection hok with h
          exact absurd h.symm ht'
      · simp only [ne_eq, ht, not_false_eq_true, if_true, reduceIte]
        refine ⟨?_, by simp, ?_, ?_⟩
        · rw [finishNotice_chatState]
          exact hshown
        · intro m hm
          rcases finishNotice_pushed_mem _ m hm with hm' | hm'
          · simp at hm'
            rcases hm' with hm' | hm'
            · exact Or.inl hm'
            · exact Or.inr (Or.inl ⟨t, rfl, hm'⟩)
          · exact Or.inr (Or.inr hm')
        · intro _ _ t' hok _
          injection hok with h
          subst h
          constructor
          · rw [finishNotice_chatState]
          · exact finishNotice_pushed_sup _ _ (by simp)
  · rw [if_neg hsum]
    refine ⟨?_, by simp, ?_, ?_⟩
    · rw [finishNotice_chatState]
      exact hshown
    · intro m hm
      rcases finishNotice_pushed_mem s m hm with hm' | hm'
      · exact Or.inl hm'
      · exact Or.inr (Or.inr hm')
    · intro hse hss _ _ _
      exact absurd ⟨hse, hss⟩ hsum

/-- C9 witness: a thrown epilogue generation at the concrete completed
arc with a successful summary: the epilogue is skipped and unflagged, no
exception escapes, and the summary is appended and flagged. -/
theorem c9_epilogue_failure_witness :
    generateEpilogueForStory "ctx" (Except.error ()) = "" ∧
    (onMessageReceived c9Ctrl false "ctx" (Except.error ())
        "story" (Except.ok "A summary")).1.chatState.epilogueShown = false ∧
    ((onMessageReceived c9Ctrl false "ctx" (Except.error ())
        "story" (Except.ok "A summary")).2 = true →
      ∃ u : Unit, (Except.ok "A summary" : Except Unit String) = Except.error u) ∧
    (∀ m ∈ (onMessageReceived c9Ctrl false "ctx" (Except.error ())
        "story" (Except.ok "A summary")).1.pushed,
      m ∈ c9Ctrl.pushed ∨
        (∃ t, summarizeChatMainForStory "story" (Except.ok "A summary") = Except.ok t ∧
          m = t) ∨ m = NOTICE_TEXT) ∧
    (c9Ctrl.settings.summaryEnabled = true → c9Ctrl.chatState.summaryShown = false →
      ∀ t, summarizeChatMainForStory "story" (Except.ok "A summary") = Except.ok t →
        t ≠ "" →
          (onMessageReceived c9Ctrl false "ctx" (Except.error ())
              "story" (Except.ok "A summary")).1.chatState.summaryShown = true ∧
            t ∈ (onMessageReceived c9Ctrl false "ctx" (Except.error ())
              "story" (Except.ok "A summary")).1.pushed) :=
  c9_epilogue_failure c9Ctrl "ctx" "story" (Except.error ()) (Except.ok "A summary")
    rfl rfl rfl rfl rfl rfl (fun _ h => nomatch h)

/-- C10: for every arcLength between 1 and 3 (valid, so the fallback is
not taken) with currentStep 0, setupEnd is 0, the step classifies as
setup with phaseEnd 0, totalInPhase is 0, and percentInPhase is the
non-integer result of dividing by zero (none in this model, NaN in the
unguarded JavaScript round(0/0)). -/
theorem c10_percent_not_a_number (n : Int) (h1 : 1 ≤ n) (h2 : n ≤ 3) :
    setupEndOf n = 0 ∧
    (getPhaseInfo 0 n).phase = Phase.setup ∧
    (getPhaseInfo 0 n).phaseEnd = 0 ∧
    (getPhaseInfo 0 n).totalInPhase = 0 ∧
    (getPhaseInfo 0 n).percentInPhase = none := by
  interval_cases n <;> decide

/-- C10 witness: the zero-denominator percentage at arcLength 2. -/
theorem c10_percent_not_a_number_witness :
    setupEndOf 2 = 0 ∧
    (getPhaseInfo 0 2).phase = Phase.setup ∧
    (getPhaseInfo 0 2).phaseEnd = 0 ∧
    (getPhaseInfo 0 2).totalInPhase = 0 ∧
    (getPhaseInfo 0 2).percentInPhase = none :=
  c10_percent_not_a_number 2 (by decide) (by decide)

end StoryMode
